import Mathlib

/-!
Verification of the content-creation operation of the GCMS repository
(`src/core/content_service/src/crud/create.ts`) against its specification.

The TypeScript function is embedded shallowly as a pure Lean function:

* MongoDB `ObjectId` values are modelled as the strings they were built
  from; `ObjectId.isValid` is modelled structurally (a 12-character
  string, or a 24-character hex string), matching the driver's check.
* The promise returned by `create` is modelled by an `Outcome`:
  `resolved v` (the executor called `resolve v`), `rejected v` (it
  called `reject v`), or `unsettled` (an exception was thrown inside
  the `new Promise(async ...)` executor, so the inner async function's
  rejection is unhandled and the outer promise never settles; the
  caller observes neither a value nor a rejection).  Once a promise is
  settled, later `resolve`/`reject` calls are no-ops, but the code
  after them still runs — the model keeps executing side effects after
  the first settle, exactly as the JavaScript does.
* Repository and collaborator accesses are recorded as an ordered
  event trace, and the content collection and the user store are
  threaded through explicitly, so frame claims ("no write happened")
  become statements about the trace and the final stores.
* The user-service collaborator (`user.get` / `user.update`) and the
  MongoDB client are not part of the shown sources; their behaviour is
  supplied by an `Env` record, with the success/failure shapes modelled
  from the spec (§6).
-/

/-- Identifiers (MongoDB ObjectId values) are modelled as strings. -/
abbrev Ident := String

/-- Model of JavaScript `String.prototype.toLowerCase`, mapping
`Char.toLower` over the characters. -/
def strToLower (s : String) : String := String.mk (s.data.map Char.toLower)

/-- Hexadecimal digit test, matching the driver's `[0-9a-fA-F]`. -/
def isHexDigitChar (c : Char) : Bool :=
  ((('0') ≤ c) && (c ≤ ('9'))) || ((('a') ≤ c) && (c ≤ ('f'))) ||
  ((('A') ≤ c) && (c ≤ ('F')))

/-- Model of `ObjectId.isValid` for string arguments: a 12-character
string, or a 24-character hexadecimal string. -/
def objectIdIsValid (s : Ident) : Bool :=
  s.length == 12 || (s.length == 24 && s.toList.all isHexDigitChar)

/-- The `locals.KEYS` error keys referenced by `create.ts`. -/
inductive ErrKey where
  | INVALID_TYPE
  | INVALID_ID
  | DB_ERROR
deriving DecidableEq, Repr

/-- The structured error shape `{code, local_key, where, message}` of
`ErrorInterface`.  The `code` field is an `Option` because one error
object built by `create.ts` (the one on the `insertOne` failure branch)
carries no `code` property at all; `whereAt` stands for the TS field
`where` (a Lean keyword). -/
structure ErrorInterface where
  code : Option Nat
  local_key : ErrKey
  whereAt : String
  message : String
deriving DecidableEq, Repr

/-- One entry of a record's `history` array
(`{content, owner, date, reason}`). -/
structure HistorySnap (α : Type) where
  content : α
  owner : Ident
  date : Nat
  reason : String
deriving DecidableEq, Repr

/-- The `ContentInterface` record shape built by `create.ts` (`pushOBJ`):
`{_id, addon_id, type, owner?, history, content}`; the payload type is
opaque to the core and is a type parameter `α`. -/
structure ContentRecord (α : Type) where
  _id : Ident
  addon_id : Ident
  type : String
  owner : Option Ident := none
  history : List (HistorySnap α)
  content : α
deriving DecidableEq, Repr

/-- The fields of `AddonInterface` that `create.ts` reads. -/
structure AddonInterface where
  id : Ident
  name : String
  types : List String
deriving DecidableEq, Repr

/-- The `content` argument of `create`: `{ content: any, owner?: ObjectId }`. -/
structure CreateContent (α : Type) where
  content : α
  owner : Option Ident := none
deriving DecidableEq, Repr

/-- A value passed to `resolve` or `reject`: the produced content
record, a structured error object, or a bare boolean. -/
inductive Settled (α : Type) where
  | contentV (r : ContentRecord α)
  | errV (e : ErrorInterface)
  | boolV (b : Bool)
deriving DecidableEq, Repr

/-- How the promise returned by `create` ends up: fulfilled (`resolve`),
rejected (`reject`), or never settled because an exception escaped the
`new Promise(async ...)` executor (an unhandled rejection: the caller
gets neither a value nor an error). -/
inductive Outcome (α : Type) where
  | resolved (v : Settled α)
  | rejected (v : Settled α)
  | unsettled
deriving DecidableEq, Repr

/-- Collaborator accesses performed by `create`, in order:
`user.get`, `user.update` (with the new owned-content list it was asked
to store), and the repository `insertOne`. -/
inductive Event (α : Type) where
  | userGet (id : Ident)
  | userUpdate (id : Ident) (newContent : List Ident)
  | insertOne (r : ContentRecord α)
deriving DecidableEq, Repr

/-- Whether an event is a persistent write (`user.get` is a read). -/
def Event.isWrite : Event α → Bool
  | .userGet _ => false
  | .userUpdate _ _ => true
  | .insertOne _ => true

/-- Whether an event touches the user store at all. -/
def Event.touchesUserStore : Event α → Bool
  | .userGet _ => true
  | .userUpdate _ _ => true
  | .insertOne _ => false

/-- Modelled from the spec: the behaviour of the collaborators that are
not part of the shown sources.  `users` is the user-store collaborator
(§6): `user.get(ownerId, {content: 1})` resolves with the user's
owned-content list when the user exists and with a not-found result
otherwise (modelled as `none`).  `updateFails` says whether
`user.update` fails; when it fails and `returnError` is true it rejects
with the structured error `updateErr`, and with the bare boolean
`false` otherwise (§7's dual error contract).  `insertFails` says
whether the repository `insertOne` reports an error, whose message is
`insertErrMsg`. -/
structure Env (α : Type) where
  users : Ident → Option (List Ident)
  updateFails : Bool
  updateErr : ErrorInterface
  insertFails : Bool
  insertErrMsg : String

/-- Aggregate result of one run of `create`: the promise's outcome, the
ordered trace of collaborator accesses, and the final content
collection and user store. -/
structure CreateResult (α : Type) where
  outcome : Outcome α
  events : List (Event α)
  contentColl : List (ContentRecord α)
  users : Ident → Option (List Ident)

/-- The record `create.ts` builds before the owner is attached
(lines 44–50): a fresh `_id`, `addon_id` from the addon's id, the
lowercased type, an empty history and the caller's payload. -/
def builtRecord (freshId : Ident) (addon : AddonInterface) (ty : String)
    (c : CreateContent α) : ContentRecord α :=
  { _id := freshId
    addon_id := addon.id
    type := strToLower ty
    owner := none
    history := []
    content := c.content }

/-- The error object of the `insertOne` failure branch
(lines 95–99): note it has no `code` field and its `where` is the
string `update.ts`. -/
def dbError (msg : String) : ErrorInterface :=
  { code := none, local_key := .DB_ERROR, whereAt := "update.ts", message := msg }

/-- The final `insertOne` step (lines 93–106).  `already` is `some oc`
when the promise was settled earlier (the ledger-failure `resolve`):
the insert still executes — the write happens and, on success, the
record enters the collection — but the later `resolve`/`reject` are
no-ops, so the outcome stays `oc`. -/
def runInsert (env : Env α) (coll : List (ContentRecord α))
    (usersF : Ident → Option (List Ident)) (evs : List (Event α))
    (already : Option (Outcome α)) (pushOBJ : ContentRecord α)
    (returnError : Bool) : CreateResult α :=
  if env.insertFails then
    { outcome :=
        match already with
        | some oc => oc
        | none =>
          .rejected (if returnError then .errV (dbError env.insertErrMsg)
                     else .boolV false)
      events := evs ++ [.insertOne pushOBJ]
      contentColl := coll
      users := usersF }
  else
    { outcome :=
        match already with
        | some oc => oc
        | none => .resolved (.contentV pushOBJ)
      events := evs ++ [.insertOne pushOBJ]
      contentColl := coll ++ [pushOBJ]
      users := usersF }

/-- Shallow embedding of the default export of
`src/core/content_service/src/crud/create.ts`.

Control flow, in source order:
1. line 32: `addon.types.includes(type)` — exact, case-sensitive
   membership; on failure reject with `INVALID_TYPE` (structured when
   `returnError === true`, else `false`).
2. line 46: `new ObjectId(addon.id)` — the addon id is *not*
   validated first; the constructor throws on a structurally invalid
   argument and the exception escapes the executor (`unsettled`).
3. lines 53–67: if an owner was supplied, `ObjectId.isValid(owner)`;
   on failure reject with `INVALID_ID`; on success attach it.
4. lines 70–84: `user.get(owner, {content: 1})`; when the user is not
   found, reject with `INVALID_ID` (the same key as the malformed-id
   branch) and the message `... is not found`.
5. lines 87–90: `user.update(owner, {content: [...old, _id]},
   returnError).catch(err => ...)`: a failure with `err.code === 0`
   throws inside the catch handler (the promise never settles); any
   other failure calls `resolve(err)` — fulfilling the promise with
   the error value — and execution *continues* to the insert.
6. lines 93–106: `insertOne(pushOBJ)`: on repository error reject
   with the `code`-less DB error (or `false`), else resolve with the
   record; when the promise was already settled in step 5 these are
   no-ops but the write still happens.

`freshId` stands for the `new ObjectId()` generated at line 45, and
`coll` is the content collection the insert appends to. -/
def create (env : Env α) (coll : List (ContentRecord α)) (freshId : Ident)
    (addon : AddonInterface) (ty : String) (c : CreateContent α)
    (returnError : Bool) : CreateResult α :=
  if !(addon.types.contains ty) then
    { outcome := .rejected (if returnError then
        .errV { code := some 1, local_key := .INVALID_TYPE, whereAt := "create.ts",
                message := "The type " ++ ty ++ " is not defined in the addon " ++ addon.name }
        else .boolV false)
      events := []
      contentColl := coll
      users := env.users }
  else if !(objectIdIsValid addon.id) then
    { outcome := .unsettled, events := [], contentColl := coll, users := env.users }
  else
    let base := builtRecord freshId addon ty c
    match c.owner with
    | none => runInsert env coll env.users [] none base returnError
    | some o =>
      if !(objectIdIsValid o) then
        { outcome := .rejected (if returnError then
            .errV { code := some 1, local_key := .INVALID_ID, whereAt := "create.ts",
                    message := "The owner " ++ o ++ " is not a valid BSON ID" }
            else .boolV false)
          events := []
          contentColl := coll
          users := env.users }
      else
        let pushOBJ := { base with owner := some o }
        match env.users o with
        | none =>
          { outcome := .rejected (if returnError then
              .errV { code := some 1, local_key := .INVALID_ID, whereAt := "create.ts",
                      message := "The owner " ++ o ++ " is not found" }
              else .boolV false)
            events := [.userGet o]
            contentColl := coll
            users := env.users }
        | some owned =>
          let newList := owned ++ [freshId]
          let evs : List (Event α) := [.userGet o, .userUpdate o newList]
          if env.updateFails then
            if returnError then
              if env.updateErr.code == some 0 then
                { outcome := .unsettled, events := evs, contentColl := coll,
                  users := env.users }
              else
                runInsert env coll env.users evs
                  (some (.resolved (.errV env.updateErr))) pushOBJ returnError
            else
              runInsert env coll env.users evs
                (some (.resolved (.boolV false))) pushOBJ returnError
          else
            runInsert env coll
              (fun u => if u = o then some newList else env.users u)
              evs none pushOBJ returnError

/-! Concrete fixtures used by the witnesses and counterexamples. -/

/-- A structurally valid 24-hex ObjectId string (an addon id). -/
def hexA : Ident := "aaaaaaaaaaaaaaaaaaaaaaaa"

/-- A structurally valid 24-hex ObjectId string (a fresh record id). -/
def hexB : Ident := "bbbbbbbbbbbbbbbbbbbbbbbb"

/-- A structurally valid 24-hex ObjectId string (an existing user id). -/
def hexC : Ident := "cccccccccccccccccccccccc"

/-- A structurally valid 24-hex ObjectId string of a nonexistent user. -/
def hexD : Ident := "dddddddddddddddddddddddd"

/-- A structurally invalid identifier. -/
def badId : Ident := "not-a-valid-id"

/-- A placeholder collaborator error (unused on passing paths). -/
def dummyErr : ErrorInterface :=
  { code := some 1, local_key := .DB_ERROR, whereAt := "user_service", message := "fail" }

/-- Environment with no users and no collaborator failures. -/
def benignEnv : Env String :=
  { users := fun _ => none, updateFails := false, updateErr := dummyErr,
    insertFails := false, insertErrMsg := "" }

/-- Environment with one user `hexC` owning `[hexA]`; no failures. -/
def envOneUser : Env String :=
  { users := fun u => if u = hexC then some [hexA] else none, updateFails := false,
    updateErr := dummyErr, insertFails := false, insertErrMsg := "" }

/-- The spec's Scenario A addon: `{name:"blog", types:["post"]}`. -/
def addonBlog : AddonInterface := { id := hexA, name := "blog", types := ["post"] }

/-- The mixed-case candidate type of Scenario A. -/
def tyPost : String := "Post"

/-- The registered, lowercase type. -/
def tyPostL : String := "post"

/-- The ownerless payload `{content:"hi"}`. -/
def cHi : CreateContent String := { content := "hi" }

/-- The structured error the modelled `user.update` rejects with when
the ownership-ledger update fails (code 1, so the catch handler's
`err.code === 0` throw is not taken). -/
def ledgerErr : ErrorInterface :=
  { code := some 1, local_key := .DB_ERROR, whereAt := "user_service",
    message := "update failed" }

/-- Environment in which user `hexC` exists owning `[hexA]` but every
`user.update` call fails with `ledgerErr`; the repository insert works. -/
def envLedgerFail : Env String :=
  { users := fun u => if u = hexC then some [hexA] else none, updateFails := true,
    updateErr := ledgerErr, insertFails := false, insertErrMsg := "" }

/-- Payload owned by the existing user `hexC`. -/
def cOwnedC : CreateContent String := { content := "hi", owner := some hexC }

/-- The record `create` builds for `cOwnedC`. -/
def recOwnedC : ContentRecord String :=
  { builtRecord hexB addonBlog tyPostL cOwnedC with owner := some hexC }

/-- Payload whose owner id is structurally valid but names no user. -/
def cOwnedMissing : CreateContent String := { content := "x", owner := some hexD }

/-- Payload whose owner id is structurally invalid. -/
def cOwnedBadId : CreateContent String := { content := "x", owner := some badId }

/-- The error `create.ts` rejects with for a well-formed but
nonexistent owner: key `INVALID_ID`, message `... is not found`. -/
def errNotFound : ErrorInterface :=
  { code := some 1, local_key := .INVALID_ID, whereAt := "create.ts",
    message := "The owner " ++ hexD ++ " is not found" }

/-- The error `create.ts` rejects with for a malformed owner id. -/
def errBadOwner : ErrorInterface :=
  { code := some 1, local_key := .INVALID_ID, whereAt := "create.ts",
    message := "The owner " ++ badId ++ " is not a valid BSON ID" }

/-- Environment whose repository `insertOne` fails with message `boom`;
no users, no ledger failures. -/
def envInsertFail : Env String :=
  { users := fun _ => none, updateFails := false, updateErr := dummyErr,
    insertFails := true, insertErrMsg := "boom" }

/-- An addon whose id is structurally malformed. -/
def addonBadId : AddonInterface := { id := badId, name := "blog", types := ["post"] }

/-- The inputs on which `create` fails one of its validation checks:
the type is not registered (line 32), or — with a well-formed addon id,
so that record construction does not throw first — a supplied owner id
is malformed (line 55) or resolves to no user (line 75). -/
def validationFails {α : Type} (env : Env α) (addon : AddonInterface) (ty : String)
    (c : CreateContent α) : Bool :=
  !(addon.types.contains ty) ||
  (objectIdIsValid addon.id &&
    (match c.owner with
     | none => false
     | some o => !(objectIdIsValid o) || (env.users o).isNone))

/-- The unregistered candidate type of Scenario B. -/
def tyComment : String := "comment"

/-- Claim C1 (counterexample): with the Scenario A addon registering
only the type `post`, `create(addon, "Post", {content:"hi"})` is
rejected with `INVALID_TYPE` — the membership test of line 32 is
case-sensitive and the type is *not* lowercased before it, so the call
does not pass type validation, contrary to the claim. -/
theorem c1_counterexample :
    (create benignEnv [] hexB addonBlog tyPost cHi true).outcome =
      .rejected (.errV { code := some 1, local_key := .INVALID_TYPE, whereAt := "create.ts",
                         message := "The type Post is not defined in the addon blog" }) ∧
    addonBlog.types = ["post"] ∧ tyPost = "Post" := by decide

/-- Claim C1 (amended): with a structurally valid addon id, no owner
and a non-failing repository, `create` succeeds iff the raw type is in
the addon's registered set, compared case-sensitively; the lowercasing
is applied only to the `type` stored in the produced record. -/
theorem c1_amended_type_check {α : Type} (env : Env α) (coll : List (ContentRecord α))
    (freshId : Ident) (addon : AddonInterface) (ty : String) (c : CreateContent α)
    (re : Bool) (h1 : objectIdIsValid addon.id = true) (h2 : c.owner = none)
    (h3 : env.insertFails = false) :
    ((∃ r, (create env coll freshId addon ty c re).outcome = .resolved (.contentV r)) ↔
      ty ∈ addon.types) ∧
    (∀ r, (create env coll freshId addon ty c re).outcome = .resolved (.contentV r) →
      r.type = strToLower ty) := by
  by_cases hty : ty ∈ addon.types
  · constructor
    · simp [create, hty, h1, h2, runInsert, h3]
    · intro r hr
      simp [create, hty, h1, h2, runInsert, h3] at hr
      simp [← hr, builtRecord]
  · constructor
    · simp only [create]
      constructor
      · intro hex
        obtain ⟨r, hr⟩ := hex
        simp [hty] at hr
      · intro hmem
        exact absurd hmem hty
    · intro r hr
      simp [create, hty] at hr

/-- Claim C1 (witness): the amended theorem instantiated at Scenario
A's addon with the registered lowercase type `post`. -/
theorem c1_amended_witness :
    ((∃ r, (create benignEnv [] hexB addonBlog tyPostL cHi false).outcome =
        .resolved (.contentV r)) ↔ tyPostL ∈ addonBlog.types) ∧
    (∀ r, (create benignEnv [] hexB addonBlog tyPostL cHi false).outcome =
        .resolved (.contentV r) → r.type = strToLower tyPostL) :=
  c1_amended_type_check benignEnv [] hexB addonBlog tyPostL cHi false
    (by decide) (by decide) (by decide)

/-- Claim C2: when the ownership-ledger update (`user.update`) fails
with a nonzero error code, `create` surfaces the ledger error by
fulfilling its promise with it — but execution continues and the
record is nevertheless inserted into the content collection, while the
user's owned set stays unchanged.  The code evaluated at this failing
input persists the record the claim says must not be persisted. -/
theorem c2_ledger_failure_still_persists :
    (create envLedgerFail [] hexB addonBlog tyPostL cOwnedC true).outcome =
      .resolved (.errV ledgerErr) ∧
    (create envLedgerFail [] hexB addonBlog tyPostL cOwnedC true).contentColl =
      [recOwnedC] ∧
    (create envLedgerFail [] hexB addonBlog tyPostL cOwnedC true).users hexC =
      some [hexA] := by decide

/-- Claim C3 (counterexample): a structurally valid owner id that
resolves to no user is rejected with the *same* error kind
(`locals.KEYS.INVALID_ID`) as a malformed owner id — there is no
distinct `UserNotFound` kind; only the message text differs. -/
theorem c3_counterexample :
    (create envOneUser [] hexB addonBlog tyPostL cOwnedMissing true).outcome =
      .rejected (.errV errNotFound) ∧
    (create envOneUser [] hexB addonBlog tyPostL cOwnedBadId true).outcome =
      .rejected (.errV errBadOwner) ∧
    errNotFound.local_key = errBadOwner.local_key := by decide

/-- Claim C3 (amended): a well-formed owner id that resolves to no
existing user makes `create` fail before any write, but with the same
`INVALID_ID` key used for malformed identifiers; the two cases are
distinguished only by the message (`... is not found` versus
`... is not a valid BSON ID`). -/
theorem c3_amended_not_found_kind {α : Type} (env : Env α) (coll : List (ContentRecord α))
    (freshId : Ident) (addon : AddonInterface) (ty : String) (c : CreateContent α)
    (o : Ident) (re : Bool) (h1 : ty ∈ addon.types) (h2 : objectIdIsValid addon.id = true)
    (h3 : c.owner = some o) (h4 : objectIdIsValid o = true) (h5 : env.users o = none) :
    (create env coll freshId addon ty c re).outcome =
      .rejected (if re then
        .errV { code := some 1, local_key := .INVALID_ID, whereAt := "create.ts",
                message := "The owner " ++ o ++ " is not found" }
        else .boolV false) ∧
    (create env coll freshId addon ty c re).events = [.userGet o] ∧
    (create env coll freshId addon ty c re).contentColl = coll ∧
    (create env coll freshId addon ty c re).users = env.users := by
  simp [create, h1, h2, h3, h4, h5]

/-- Claim C3 (witness): the amended theorem at the concrete
nonexistent owner `hexD`, with structured errors requested. -/
theorem c3_amended_witness :
    (create envOneUser [] hexB addonBlog tyPostL cOwnedMissing true).outcome =
      .rejected (if true then
        .errV { code := some 1, local_key := .INVALID_ID, whereAt := "create.ts",
                message := "The owner " ++ hexD ++ " is not found" }
        else .boolV false) ∧
    (create envOneUser [] hexB addonBlog tyPostL cOwnedMissing true).events =
      [.userGet hexD] ∧
    (create envOneUser [] hexB addonBlog tyPostL cOwnedMissing true).contentColl = [] ∧
    (create envOneUser [] hexB addonBlog tyPostL cOwnedMissing true).users =
      envOneUser.users :=
  c3_amended_not_found_kind envOneUser [] hexB addonBlog tyPostL cOwnedMissing hexD true
    (by decide) (by decide) (by decide) (by decide) (by decide)

/-- Claim C4 (counterexample): on the storage-failure branch with
`returnError = true`, the rejected structured error carries no `code`
field at all (lines 95–99 build `{local_key, where, message}` only),
so the failure does not carry all four of `{code, kind, origin,
message}` as claimed. -/
theorem c4_counterexample :
    (create envInsertFail [] hexB addonBlog tyPostL cHi true).outcome =
      .rejected (.errV (dbError envInsertFail.insertErrMsg)) ∧
    (dbError envInsertFail.insertErrMsg).code = none := by decide

/-- Claim C4 (amended): every run of `create` either succeeds with the
record, fails through the channel selected by `returnError` (a
structured error when true — though the storage-failure error lacks
`code`, and the ledger-failure error arrives by fulfilment, not
rejection — and the bare boolean `false` when not), or does not settle
at all; and the unsettled escape happens only on a malformed addon id
or a ledger failure whose error code is 0. -/
theorem c4_amended_failure_channels {α : Type} (env : Env α)
    (coll : List (ContentRecord α)) (freshId : Ident) (addon : AddonInterface)
    (ty : String) (c : CreateContent α) (re : Bool) :
    ((re = true →
      (∃ r, (create env coll freshId addon ty c re).outcome = .resolved (.contentV r)) ∨
      (∃ e, (create env coll freshId addon ty c re).outcome = .rejected (.errV e) ∨
            (create env coll freshId addon ty c re).outcome = .resolved (.errV e)) ∨
      (create env coll freshId addon ty c re).outcome = .unsettled) ∧
    (re = false →
      (∃ r, (create env coll freshId addon ty c re).outcome = .resolved (.contentV r)) ∨
      (create env coll freshId addon ty c re).outcome = .rejected (.boolV false) ∨
      (create env coll freshId addon ty c re).outcome = .resolved (.boolV false) ∨
      (create env coll freshId addon ty c re).outcome = .unsettled)) ∧
    ((create env coll freshId addon ty c re).outcome = .unsettled →
      objectIdIsValid addon.id = false ∨
      (env.updateFails = true ∧ env.updateErr.code = some 0)) := by
  by_cases h1 : ty ∈ addon.types
  · by_cases h2 : objectIdIsValid addon.id = true
    · cases hoc : c.owner with
      | none =>
        by_cases h8 : env.insertFails = true <;> cases re <;>
          simp [create, runInsert, h1, h2, hoc, h8]
      | some o =>
        by_cases h4 : objectIdIsValid o = true
        · cases h5 : env.users o with
          | none => cases re <;> simp [create, runInsert, h1, h2, hoc, h4, h5]
          | some owned =>
            by_cases h6 : env.updateFails = true
            · by_cases h7 : env.updateErr.code = some 0
              · cases re <;> by_cases h8 : env.insertFails = true <;>
                  simp [create, runInsert, h1, h2, hoc, h4, h5, h6, h7, h8]
              · cases re <;> by_cases h8 : env.insertFails = true <;>
                  simp [create, runInsert, h1, h2, hoc, h4, h5, h6, h7, h8]
            · cases re <;> by_cases h8 : env.insertFails = true <;>
                simp [create, runInsert, h1, h2, hoc, h4, h5, h6, h8]
        · cases re <;> simp [create, runInsert, h1, h2, hoc, h4]
    · cases re <;> simp [create, h1, h2]
  · cases re <;> simp [create, h1]

/-- Claim C4 (witness): the unsettled-escape characterization applied
at a concrete run with a malformed addon id. -/
theorem c4_amended_witness :
    objectIdIsValid addonBadId.id = false ∨
    (benignEnv.updateFails = true ∧ benignEnv.updateErr.code = some 0) :=
  (c4_amended_failure_channels benignEnv [] hexB addonBadId tyPostL cHi true).2 (by decide)

/-- Claim C5 (counterexample): with a registered type but a
structurally malformed addon id, `create` performs no identifier
validation on the addon id; `new ObjectId(addon.id)` (line 46) throws,
the exception escapes the `new Promise` executor, and the promise
never settles — the failure is not signalled through either error
channel. -/
theorem c5_counterexample :
    (create benignEnv [] hexB addonBadId tyPostL cHi true).outcome = .unsettled ∧
    (create benignEnv [] hexB addonBadId tyPostL cHi true).events = [] := by decide

/-- Claim C5 (amended): `create` does not validate the addon id; on
any run whose type passes validation but whose addon id is
structurally invalid, the thrown constructor exception escapes both
error channels (the promise never settles), with no collaborator
access and no write performed. -/
theorem c5_amended_bad_addon_id_escapes {α : Type} (env : Env α)
    (coll : List (ContentRecord α)) (freshId : Ident) (addon : AddonInterface)
    (ty : String) (c : CreateContent α) (re : Bool) (h1 : ty ∈ addon.types)
    (h2 : objectIdIsValid addon.id = false) :
    (create env coll freshId addon ty c re).outcome = .unsettled ∧
    (create env coll freshId addon ty c re).events = [] ∧
    (create env coll freshId addon ty c re).contentColl = coll ∧
    (create env coll freshId addon ty c re).users = env.users := by
  simp [create, h1, h2]

/-- Claim C5 (witness): the amended theorem at the malformed addon id
`not-a-valid-id` with the registered type `post`. -/
theorem c5_amended_witness :
    (create benignEnv [] hexB addonBadId tyPostL cHi true).outcome = .unsettled ∧
    (create benignEnv [] hexB addonBadId tyPostL cHi true).events = [] ∧
    (create benignEnv [] hexB addonBadId tyPostL cHi true).contentColl = [] ∧
    (create benignEnv [] hexB addonBadId tyPostL cHi true).users = benignEnv.users :=
  c5_amended_bad_addon_id_escapes benignEnv [] hexB addonBadId tyPostL cHi true
    (by decide) (by decide)

/-- Claim C6: a supplied owner that is not a structurally valid
identifier makes `create` reject with the `INVALID_ID` error (or the
bare `false` when structured errors were not requested), with no
collaborator access, no write, and no record built from the malformed
id. -/
theorem c6_invalid_owner_rejected {α : Type} (env : Env α)
    (coll : List (ContentRecord α)) (freshId : Ident) (addon : AddonInterface)
    (ty : String) (c : CreateContent α) (o : Ident) (re : Bool)
    (h1 : ty ∈ addon.types) (h2 : objectIdIsValid addon.id = true)
    (h3 : c.owner = some o) (h4 : objectIdIsValid o = false) :
    (create env coll freshId addon ty c re).outcome =
      .rejected (if re then
        .errV { code := some 1, local_key := .INVALID_ID, whereAt := "create.ts",
                message := "The owner " ++ o ++ " is not a valid BSON ID" }
        else .boolV false) ∧
    (create env coll freshId addon ty c re).events = [] ∧
    (create env coll freshId addon ty c re).contentColl = coll ∧
    (create env coll freshId addon ty c re).users = env.users := by
  simp [create, h1, h2, h3, h4]

/-- Claim C6 (witness): the concrete Scenario C call
`create(addon, "post", {content:"x", owner:"not-a-valid-id"})` with
structured errors requested. -/
theorem c6_witness :
    (create envOneUser [] hexB addonBlog tyPostL cOwnedBadId true).outcome =
      .rejected (if true then
        .errV { code := some 1, local_key := .INVALID_ID, whereAt := "create.ts",
                message := "The owner " ++ badId ++ " is not a valid BSON ID" }
        else .boolV false) ∧
    (create envOneUser [] hexB addonBlog tyPostL cOwnedBadId true).events = [] ∧
    (create envOneUser [] hexB addonBlog tyPostL cOwnedBadId true).contentColl = [] ∧
    (create envOneUser [] hexB addonBlog tyPostL cOwnedBadId true).users =
      envOneUser.users :=
  c6_invalid_owner_rejected envOneUser [] hexB addonBlog tyPostL cOwnedBadId badId true
    (by decide) (by decide) (by decide) (by decide)

/-- Claim C7: on a successful create with an existing owner, the
owner's owned-content list afterwards is its previous list with the
fresh record id appended: it contains the new id, keeps every
previously owned id, and (the fresh id being new) introduces no
duplicate. -/
theorem c7_owner_ledger_append {α : Type} (env : Env α)
    (coll : List (ContentRecord α)) (freshId : Ident) (addon : AddonInterface)
    (ty : String) (c : CreateContent α) (o : Ident) (owned : List Ident) (re : Bool)
    (h1 : ty ∈ addon.types) (h2 : objectIdIsValid addon.id = true)
    (h3 : c.owner = some o) (h4 : objectIdIsValid o = true)
    (h5 : env.users o = some owned) (h6 : env.updateFails = false)
    (h7 : env.insertFails = false) (h8 : freshId ∉ owned) :
    (create env coll freshId addon ty c re).outcome =
      .resolved (.contentV { builtRecord freshId addon ty c with owner := some o }) ∧
    (create env coll freshId addon ty c re).users o = some (owned ++ [freshId]) ∧
    freshId ∈ owned ++ [freshId] ∧
    (∀ x ∈ owned, x ∈ owned ++ [freshId]) ∧
    (owned.Nodup → (owned ++ [freshId]).Nodup) := by
  refine ⟨?_, ?_, ?_, ?_, ?_⟩
  · simp [create, runInsert, h1, h2, h3, h4, h5, h6, h7]
  · simp [create, runInsert, h1, h2, h3, h4, h5, h6, h7]
  · simp
  · intro x hx
    simp [hx]
  · intro hnd
    simp [List.nodup_append, hnd, h8]

/-- Claim C7 (witness): Scenario E at the existing user `hexC`, whose
owned list `[hexA]` becomes `[hexA, hexB]` after the create. -/
theorem c7_witness :
    (create envOneUser [] hexB addonBlog tyPostL cOwnedC false).outcome =
      .resolved (.contentV { builtRecord hexB addonBlog tyPostL cOwnedC with
                             owner := some hexC }) ∧
    (create envOneUser [] hexB addonBlog tyPostL cOwnedC false).users hexC =
      some ([hexA] ++ [hexB]) ∧
    hexB ∈ [hexA] ++ [hexB] ∧
    (∀ x ∈ [hexA], x ∈ [hexA] ++ [hexB]) ∧
    ([hexA].Nodup → ([hexA] ++ [hexB]).Nodup) :=
  c7_owner_ledger_append envOneUser [] hexB addonBlog tyPostL cOwnedC hexC [hexA] false
    (by decide) (by decide) (by decide) (by decide) (by decide) (by decide) (by decide)
    (by decide)

/-- Claim C8: whenever `create` fails a validation check
(`InvalidType`, malformed owner id, or owner not found), it rejects
before any persistent write: the trace contains no `user.update` and
no `insertOne` (at most the `user.get` read), and both stores are
unchanged. -/
theorem c8_validation_before_writes {α : Type} (env : Env α)
    (coll : List (ContentRecord α)) (freshId : Ident) (addon : AddonInterface)
    (ty : String) (c : CreateContent α) (re : Bool)
    (h : validationFails env addon ty c = true) :
    (create env coll freshId addon ty c re).events.all (fun e => !(e.isWrite)) = true ∧
    (create env coll freshId addon ty c re).contentColl = coll ∧
    (create env coll freshId addon ty c re).users = env.users ∧
    ∃ v, (create env coll freshId addon ty c re).outcome = .rejected v := by
  by_cases h1 : ty ∈ addon.types
  · simp [validationFails, h1] at h
    cases hoc : c.owner with
    | none => simp [hoc] at h
    | some o =>
      rw [hoc] at h
      by_cases h4 : objectIdIsValid o = true
      · simp [h4] at h
        cases h5 : env.users o with
        | none => simp [create, h1, h.1, hoc, h4, h5, Event.isWrite]
        | some owned => simp [h5] at h
      · simp [create, h1, h.1, hoc, h4]
  · simp [create, h1]

/-- Claim C8 (witness): Scenario B — an unregistered type `comment` —
rejects with no access and no write. -/
theorem c8_witness :
    (create benignEnv [] hexB addonBlog tyComment cHi false).events.all
      (fun e => !(e.isWrite)) = true ∧
    (create benignEnv [] hexB addonBlog tyComment cHi false).contentColl = [] ∧
    (create benignEnv [] hexB addonBlog tyComment cHi false).users = benignEnv.users ∧
    ∃ v, (create benignEnv [] hexB addonBlog tyComment cHi false).outcome =
      Outcome.rejected v :=
  c8_validation_before_writes benignEnv [] hexB addonBlog tyComment cHi false (by decide)

/-- Claim C9: every record `create` resolves with has an empty
`history` — `pushOBJ` is built with `history: []` and no branch of the
function modifies it. -/
theorem c9_history_empty {α : Type} (env : Env α) (coll : List (ContentRecord α))
    (freshId : Ident) (addon : AddonInterface) (ty : String) (c : CreateContent α)
    (re : Bool) (r : ContentRecord α)
    (h : (create env coll freshId addon ty c re).outcome = .resolved (.contentV r)) :
    r.history = [] := by
  by_cases h1 : ty ∈ addon.types
  · by_cases h2 : objectIdIsValid addon.id = true
    · cases hoc : c.owner with
      | none =>
        by_cases h8 : env.insertFails = true <;>
          simp [create, runInsert, h1, h2, hoc, h8] at h <;>
          simp [← h, builtRecord]
      | some o =>
        by_cases h4 : objectIdIsValid o = true
        · cases h5 : env.users o with
          | none => simp [create, h1, h2, hoc, h4, h5] at h
          | some owned =>
            by_cases h6 : env.updateFails = true
            · by_cases h7 : env.updateErr.code = some 0 <;>
                cases re <;> by_cases h8 : env.insertFails = true <;>
                simp [create, runInsert, h1, h2, hoc, h4, h5, h6, h7, h8] at h
            · by_cases h8 : env.insertFails = true <;>
                simp [create, runInsert, h1, h2, hoc, h4, h5, h6, h8] at h <;>
                simp [← h, builtRecord]
        · simp [create, h1, h2, hoc, h4] at h
    · simp [create, h1, h2] at h
  · simp [create, h1] at h

/-- Claim C9 (witness): the Scenario A-style successful create; the
resolved record's history is empty. -/
theorem c9_witness :
    (create benignEnv [] hexB addonBlog tyPostL cHi false).outcome =
      .resolved (.contentV (builtRecord hexB addonBlog tyPostL cHi)) ∧
    (builtRecord hexB addonBlog tyPostL cHi).history = [] :=
  ⟨by decide,
   c9_history_empty benignEnv [] hexB addonBlog tyPostL cHi false
     (builtRecord hexB addonBlog tyPostL cHi) (by decide)⟩

/-- Claim C10: a create with no owner never touches the user store
(no `user.get`, no `user.update`, user store unchanged); and on the
path that reaches persistence (registered type, well-formed addon id)
the trace is exactly the single `insertOne` of the ownerless record,
which enters the collection iff the repository succeeds. -/
theorem c10_no_owner_frame {α : Type} (env : Env α) (coll : List (ContentRecord α))
    (freshId : Ident) (addon : AddonInterface) (ty : String) (c : CreateContent α)
    (re : Bool) (h : c.owner = none) :
    (create env coll freshId addon ty c re).events.all
      (fun e => !(e.touchesUserStore)) = true ∧
    (create env coll freshId addon ty c re).users = env.users ∧
    (ty ∈ addon.types → objectIdIsValid addon.id = true →
      ((create env coll freshId addon ty c re).events =
        [.insertOne (builtRecord freshId addon ty c)] ∧
       (builtRecord freshId addon ty c).owner = none ∧
       (create env coll freshId addon ty c re).contentColl =
         coll ++ (if env.insertFails then [] else [builtRecord freshId addon ty c]))) := by
  by_cases h1 : ty ∈ addon.types
  · by_cases h2 : objectIdIsValid addon.id = true
    · by_cases h8 : env.insertFails = true <;>
        simp [create, runInsert, h, h1, h2, h8, Event.touchesUserStore, builtRecord]
    · simp [create, h, h1, h2, Event.touchesUserStore]
  · simp [create, h, h1, Event.touchesUserStore]

/-- Claim C10 (witness): the ownerless Scenario A-style call — only
the single insert happens and the user store is untouched. -/
theorem c10_witness :
    (create benignEnv [] hexB addonBlog tyPostL cHi false).events.all
      (fun e => !(e.touchesUserStore)) = true ∧
    (create benignEnv [] hexB addonBlog tyPostL cHi false).users = benignEnv.users ∧
    (tyPostL ∈ addonBlog.types → objectIdIsValid addonBlog.id = true →
      ((create benignEnv [] hexB addonBlog tyPostL cHi false).events =
        [.insertOne (builtRecord hexB addonBlog tyPostL cHi)] ∧
       (builtRecord hexB addonBlog tyPostL cHi).owner = none ∧
       (create benignEnv [] hexB addonBlog tyPostL cHi false).contentColl =
         [] ++ (if benignEnv.insertFails then []
                else [builtRecord hexB addonBlog tyPostL cHi]))) :=
  c10_no_owner_frame benignEnv [] hexB addonBlog tyPostL cHi false (by decide)
